import Mathlib

/-!
# Verification of the file transfer integrity subsystem

Shallow embedding of `src/app/routers/files.py` (task-manager-api): the
upload / list / metadata / download / verify / delete lifecycle of file
transfers, together with the SHA-256 checksum engine it relies on.

Bytes are modelled as natural numbers (values mod 256 where it matters for
the hash), byte streams as lists, the filesystem as an association list
from paths to byte contents, and the relational record store as a list of
rows ordered by ascending id.
-/

set_option maxRecDepth 4000

namespace TaskManager

/-! ## SHA-256 (the digest used by `hashlib.sha256`)

A full executable implementation of FIPS 180-4 SHA-256 over byte lists,
with 32-bit words represented as `Nat` reduced mod `2^32`. -/

/-- A byte: a natural number; only its value mod 256 is significant. -/
abbrev Byte := Nat

/-- A byte stream (file content, upload body). -/
abbrev Bytes := List Byte

/-- 2^32, the word modulus of SHA-256. -/
def w32 : Nat := 4294967296

/-- Addition of 32-bit words. -/
def add32 (a b : Nat) : Nat := (a + b) % w32

/-- Right rotation of a 32-bit word by `n` bits. -/
def rotr (n x : Nat) : Nat := ((x >>> n) + (x <<< (32 - n))) % w32

/-- Logical right shift of a 32-bit word. -/
def shr32 (n x : Nat) : Nat := x >>> n

/-- SHA-256 big sigma 0. -/
def bsig0 (x : Nat) : Nat := (rotr 2 x) ^^^ (rotr 13 x) ^^^ (rotr 22 x)

/-- SHA-256 big sigma 1. -/
def bsig1 (x : Nat) : Nat := (rotr 6 x) ^^^ (rotr 11 x) ^^^ (rotr 25 x)

/-- SHA-256 small sigma 0. -/
def ssig0 (x : Nat) : Nat := (rotr 7 x) ^^^ (rotr 18 x) ^^^ (shr32 3 x)

/-- SHA-256 small sigma 1. -/
def ssig1 (x : Nat) : Nat := (rotr 17 x) ^^^ (rotr 19 x) ^^^ (shr32 10 x)

/-- SHA-256 choose function; complement taken inside 32 bits. -/
def ch32 (x y z : Nat) : Nat := (x &&& y) ^^^ ((x ^^^ 4294967295) &&& z)

/-- SHA-256 majority function. -/
def maj32 (x y z : Nat) : Nat := (x &&& y) ^^^ (x &&& z) ^^^ (y &&& z)

/-- The 64 SHA-256 round constants, written in decimal. -/
def sha256K : List Nat :=
  [1116352408, 1899447441, 3049323471, 3921009573, 961987163,
   1508970993, 2453635748, 2870763221, 3624381080, 310598401,
   607225278, 1426881987, 1925078388, 2162078206, 2614888103,
   3248222580, 3835390401, 4022224774, 264347078, 604807628,
   770255983, 1249150122, 1555081692, 1996064986, 2554220882,
   2821834349, 2952996808, 3210313671, 3336571891, 3584528711,
   113926993, 338241895, 666307205, 773529912, 1294757372,
   1396182291, 1695183700, 1986661051, 2177026350, 2456956037,
   2730485921, 2820302411, 3259730800, 3345764771, 3516065817,
   3600352804, 4094571909, 275423344, 430227734, 506948616,
   659060556, 883997877, 958139571, 1322822218, 1537002063,
   1747873779, 1955562222, 2024104815, 2227730452, 2361852424,
   2428436474, 2756734187, 3204031479, 3329325298]

/-- The initial SHA-256 hash value, written in decimal. -/
def sha256H0 : List Nat :=
  [1779033703, 3144134277, 1013904242, 2773480762,
   1359893119, 2600822924, 528734635, 1541459225]

/-- Big-endian bytes of `x` using `n` bytes. -/
def beBytes (n x : Nat) : Bytes :=
  match n with
  | 0 => []
  | m + 1 => beBytes m (x / 256) ++ [x % 256]

/-- SHA-256 message padding: append `0x80`, zeros to 56 mod 64, then the
bit length as a 64-bit big-endian integer. -/
def sha256Pad (msg : Bytes) : Bytes :=
  let len := msg.length
  let zeros := (119 - len % 64) % 64
  msg ++ 0x80 :: List.replicate zeros 0 ++ beBytes 8 (len * 8)

/-- Decode four big-endian bytes into a 32-bit word. -/
def word32Of (b0 b1 b2 b3 : Byte) : Nat :=
  (((b0 % 256) * 256 + b1 % 256) * 256 + b2 % 256) * 256 + b3 % 256

/-- Group a padded byte list into 32-bit big-endian words. -/
def toWords : Bytes → List Nat
  | b0 :: b1 :: b2 :: b3 :: rest => word32Of b0 b1 b2 b3 :: toWords rest
  | _ => []

/-- Extend the 16 words of a block to the 64-entry message schedule.
`w` holds the schedule so far, most recent word first. -/
def schedNext (w : List Nat) : Nat :=
  match w with
  | _ :: w2 :: _ :: _ :: _ :: _ :: w7 :: _ :: _ :: _ :: _ :: _ :: _ :: _ :: w15 :: w16 :: _ =>
    (ssig1 w2 + w7 + ssig0 w15 + w16) % w32
  | _ => 0

/-- Build the full 64-word message schedule from the 16 block words. -/
def schedule (block16 : List Nat) : List Nat :=
  let rec go : Nat → List Nat → List Nat
    | 0, acc => acc.reverse
    | k + 1, acc => go k (schedNext acc :: acc)
  go 48 block16.reverse

/-- One SHA-256 round: update the eight working variables with schedule
word `wt` and round constant `kt`. -/
def round256 (st : List Nat) (kt wt : Nat) : List Nat :=
  match st with
  | [a, b, c, d, e, f, g, h] =>
    let t1 := (h + bsig1 e + ch32 e f g + kt + wt) % w32
    let t2 := (bsig0 a + maj32 a b c) % w32
    [(t1 + t2) % w32, a, b, c, (d + t1) % w32, e, f, g]
  | other => other

/-- Compress one 512-bit block (given as 16 words) into the hash state. -/
def compress (h : List Nat) (block16 : List Nat) : List Nat :=
  let ws := schedule block16
  let st := (sha256K.zip ws).foldl (fun s p => round256 s p.1 p.2) h
  (h.zip st).map fun p => add32 p.1 p.2

/-- Chunking worker, structurally recursive on a fuel bound so that it
reduces inside the kernel; one unit of fuel covers one read call. -/
def readChunksF (fuel n : Nat) (l : Bytes) : List Bytes :=
  match fuel, l with
  | _, [] => []
  | 0, _ => []
  | fuel + 1, l@(_ :: _) => l.take (n + 1) :: readChunksF fuel n (l.drop (n + 1))

/-- Split `l` into consecutive chunks of `n + 1` bytes (the last chunk may
be shorter); an empty list yields no chunks, matching a read loop that
stops at `b""`. -/
def readChunks (n : Nat) (l : Bytes) : List Bytes :=
  readChunksF l.length n l

/-- Hex digit character for a value below 16. -/
def hexChar (n : Nat) : Char :=
  if n < 10 then Char.ofNat (48 + n) else Char.ofNat (87 + n % 16)

/-- Eight-character lowercase hex rendering of a 32-bit word. -/
def wordHex (x : Nat) : List Char :=
  [hexChar (x / 0x10000000 % 16), hexChar (x / 0x1000000 % 16),
   hexChar (x / 0x100000 % 16), hexChar (x / 0x10000 % 16),
   hexChar (x / 0x1000 % 16), hexChar (x / 0x100 % 16),
   hexChar (x / 16 % 16), hexChar (x % 16)]

/-- SHA-256 of a byte list, as the 64-character lowercase hex digest:
pad, split into 64-byte blocks, compress each in order, render. -/
def sha256Hex (msg : Bytes) : String :=
  let blocks := (readChunks 63 (sha256Pad msg)).map toWords
  let hs := blocks.foldl compress sha256H0
  ⟨(hs.map wordHex).flatten⟩

/-! ## The hashlib accumulator interface

`hashlib.sha256()` is an accumulator: `update` feeds more bytes and
`hexdigest` finalizes.  Its observable semantics are that the digest is
SHA-256 of the concatenation of all bytes fed so far, which is how the
accumulated state is modelled here. -/

/-- State of a `hashlib.sha256()` object: the bytes fed so far. -/
structure Sha256Ctx where
  fed : Bytes
deriving Repr, DecidableEq

/-- `hashlib.sha256()`: fresh accumulator. -/
def Sha256Ctx.new : Sha256Ctx := ⟨[]⟩

/-- `h.update(b)`: feed a block of bytes. -/
def Sha256Ctx.update (c : Sha256Ctx) (b : Bytes) : Sha256Ctx := ⟨c.fed ++ b⟩

/-- `h.hexdigest()`: the SHA-256 hex digest of everything fed. -/
def Sha256Ctx.hexdigest (c : Sha256Ctx) : String := sha256Hex c.fed

/-! ## Chunked file reading

`calculate_checksum` reads the file with `f.read(4096)` until the read
returns `b""`; `readChunks 4095` reproduces that chunking of the content. -/

/-- `calculate_checksum` (files.py lines 20-25), applied to the bytes that
the file at the given path holds: feed each 4096-byte block of the content
into a fresh SHA-256 accumulator and finalize. -/
def calculate_checksum (content : Bytes) : String :=
  ((readChunks 4095 content).foldl Sha256Ctx.update Sha256Ctx.new).hexdigest

/-! ## Timestamps and the storage namer

Upload derives the stored name as
`datetime.now().strftime("%Y%m%d_%H%M%S") + "_" + file.filename` and the
path as `UPLOAD_DIR / safe_filename` with `UPLOAD_DIR = Path("uploads")`. -/

/-- A wall-clock instant as `datetime.now()` observes it, including the
microsecond field that second-granularity formatting discards. -/
structure DateTime where
  year : Nat
  month : Nat
  day : Nat
  hour : Nat
  minute : Nat
  second : Nat
  microsecond : Nat
deriving Repr, DecidableEq

/-- Zero-padded two-digit rendering (strftime `%m`, `%d`, `%H`, `%M`, `%S`). -/
def pad2 (n : Nat) : String :=
  if n < 10 then "0" ++ toString n else toString n

/-- Zero-padded four-digit rendering (strftime `%Y`). -/
def pad4 (n : Nat) : String :=
  if n < 10 then "000" ++ toString n
  else if n < 100 then "00" ++ toString n
  else if n < 1000 then "0" ++ toString n
  else toString n

/-- `t.strftime("%Y%m%d_%H%M%S")`: second-granularity compact rendering. -/
def strftimeCompact (t : DateTime) : String :=
  pad4 t.year ++ pad2 t.month ++ pad2 t.day ++ "_" ++
    pad2 t.hour ++ pad2 t.minute ++ pad2 t.second

/-- `MAX_FILE_SIZE = 100 * 1024 * 1024` (files.py line 18). -/
def MAX_FILE_SIZE : Nat := 100 * 1024 * 1024

/-- The stored filename `f"{timestamp}_{file.filename}"` (line 38). -/
def safeFilename (now : DateTime) (filename : String) : String :=
  strftimeCompact now ++ "_" ++ filename

/-- The resolved path `UPLOAD_DIR / safe_filename` (line 39), with the
Path `/` operator joining via a slash. -/
def uploadPath (now : DateTime) (filename : String) : String :=
  "uploads/" ++ safeFilename now filename

/-! ## Filesystem

The upload root's files as an association list from path to content. -/

/-- The files on disk: path / content pairs, at most one entry per path. -/
abbrev FileSystem := List (String × Bytes)

/-- The bytes at `p`, when a file exists there. -/
def fsRead (fs : FileSystem) (p : String) : Option Bytes :=
  match fs.find? (fun e => e.1 == p) with
  | some e => some e.2
  | none => none

/-- `Path.exists()`. -/
def fsExists (fs : FileSystem) (p : String) : Bool :=
  (fsRead fs p).isSome

/-- Writing `content` to `p` (`open(p, "wb")` + copy): overwrites any
existing file at `p`, otherwise adds one. -/
def fsWrite (fs : FileSystem) (p : String) (content : Bytes) : FileSystem :=
  (p, content) :: fs.filter (fun e => !(e.1 == p))

/-- `Path.unlink()`: remove the file at `p`. -/
def fsUnlink (fs : FileSystem) (p : String) : FileSystem :=
  fs.filter (fun e => !(e.1 == p))

/-! ## The transfer record store

Modelled from the spec: the `FileTransfer` model and the SQLAlchemy
session (`app.models`, `app.database`) are not under `src/`; §3 and §4.3
of the spec give the record shape and the store contract (`insert`
assigns the id, `get` looks up by id, `list(skip, limit)` returns a
stable order by id ascending truncated by skip/limit, `delete` removes
one row). Rows are kept in ascending-id order. -/

/-- One persisted transfer record (§3; model `FileTransfer`). -/
structure FileTransfer where
  id : Nat
  filename : String
  stored_filename : String
  file_path : String
  file_size : Nat
  checksum : String
  upload_date : DateTime
  status : String
deriving Repr, DecidableEq

/-- The relational store: rows plus the next id the sequence will assign. -/
structure Db where
  rows : List FileTransfer
  nextId : Nat
deriving Repr, DecidableEq

/-- `db.add` + `db.commit` + `db.refresh`: append the row with the
system-assigned id and return it. -/
def dbInsert (d : Db) (r : FileTransfer) : FileTransfer × Db :=
  let row := { r with id := d.nextId }
  (row, ⟨d.rows ++ [row], d.nextId + 1⟩)

/-- `db.query(FileTransfer).filter(FileTransfer.id == i).first()`. -/
def dbGet (d : Db) (i : Nat) : Option FileTransfer :=
  d.rows.find? (fun r => r.id == i)

/-- `db.query(FileTransfer).offset(skip).limit(limit).all()`. -/
def dbList (d : Db) (skip limit : Nat) : List FileTransfer :=
  (d.rows.drop skip).take limit

/-- `db.delete(row)` + `db.commit`. -/
def dbDelete (d : Db) (i : Nat) : Db :=
  ⟨d.rows.filter (fun r => !(r.id == i)), d.nextId⟩

/-- Well-formedness the store maintains: rows strictly ascending by id and
every id below `nextId`. -/
def DbWf (d : Db) : Prop :=
  d.rows.Pairwise (fun a b => a.id < b.id) ∧ ∀ r ∈ d.rows, r.id < d.nextId

/-- The whole observable state of the service: record rows plus the files
under the upload root. -/
structure SysState where
  db : Db
  fs : FileSystem
deriving Repr, DecidableEq

/-! ## The endpoint operations (files.py lines 27-125)

Each handler is a function from its inputs and the current state to an
observable result and the next state.  `raise HTTPException` is modelled
as an error result; an exception that escapes the handler unhandled (the
framework then answers with a generic 500) is modelled separately. -/

/-- `fastapi.HTTPException`: status code plus detail message. -/
structure HTTPException where
  status_code : Nat
  detail : String
deriving Repr, DecidableEq

/-- A failure injected into an upload step located after the file write:
the checksum pass over the file (I/O error) or the record insert
(database error).  `msg` is the exception's rendered message `str(e)`. -/
inductive UploadFailure where
  | checksumStep (msg : String)
  | insertStep (msg : String)
deriving Repr, DecidableEq

/-- Outcome of `POST /files/upload` as the client observes it. -/
inductive UploadResult where
  /-- 201 with the persisted record. -/
  | created (rec : FileTransfer)
  /-- An `HTTPException` raised out of the handler. -/
  | httpError (e : HTTPException)
  /-- A non-HTTP exception escaped the handler; the framework answers
  with a generic 500 Internal Server Error. -/
  | unhandledError (exc : String)
deriving Repr, DecidableEq

/-- `upload_file` (lines 27-63).  The whole body sits in
`try: ... except Exception as e:`; the handler's `raise HTTPException(413)`
for an oversize body is itself caught by that `except`, whose cleanup
reads the local `file_path` — which is only assigned at line 39, after the
size check — so the oversize path dies with `UnboundLocalError` before any
HTTP error can be produced.  `failAt` injects a failure into a post-write
step (`none` = no step fails). -/
def upload_file (content : Bytes) (filename : String) (now : DateTime)
    (failAt : Option UploadFailure) (st : SysState) : UploadResult × SysState :=
  let file_size := content.length
  if file_size > MAX_FILE_SIZE then
    (.unhandledError "UnboundLocalError", st)
  else
    let safe_filename := safeFilename now filename
    let file_path := uploadPath now filename
    let fs1 := fsWrite st.fs file_path content
    match failAt with
    | some f =>
      let msg := match f with
        | .checksumStep m => m
        | .insertStep m => m
      (.httpError ⟨500, "Upload failed: " ++ msg⟩,
        { st with fs := fsUnlink fs1 file_path })
    | none =>
      let checksum := calculate_checksum content
      let (rec, db1) := dbInsert st.db
        { id := 0, filename := filename, stored_filename := safe_filename,
          file_path := file_path, file_size := file_size,
          checksum := checksum, upload_date := now, status := "completed" }
      (.created rec, ⟨db1, fs1⟩)

/-- `list_files` (lines 65-67): `db.query(FileTransfer).offset(skip).limit(limit).all()`. -/
def list_files (skip limit : Nat) (st : SysState) : List FileTransfer × SysState :=
  (dbList st.db skip limit, st)

/-- The query-parameter defaults of `list_files`: `skip: int = 0`. -/
def LIST_SKIP_DEFAULT : Nat := 0

/-- The query-parameter defaults of `list_files`: `limit: int = 100`. -/
def LIST_LIMIT_DEFAULT : Nat := 100

/-- `GET /files/` with no query parameters: the defaults apply. -/
def list_files_default (st : SysState) : List FileTransfer × SysState :=
  list_files LIST_SKIP_DEFAULT LIST_LIMIT_DEFAULT st

/-- `get_file_metadata` (lines 69-74). -/
def get_file_metadata (file_id : Nat) (st : SysState) :
    Except HTTPException FileTransfer × SysState :=
  match dbGet st.db file_id with
  | none => (.error ⟨404, "File not found"⟩, st)
  | some file_record => (.ok file_record, st)

/-- Outcome of `GET /files/{id}/download`. -/
inductive DownloadResult where
  /-- 200: a `FileResponse` serving the bytes at `path`, under the given
  download filename and media type. -/
  | file (content : Bytes) (filename : String) (media_type : String)
  /-- An `HTTPException` raised out of the handler. -/
  | httpError (e : HTTPException)
deriving Repr, DecidableEq

/-- `download_file` (lines 76-90). -/
def download_file (file_id : Nat) (st : SysState) : DownloadResult × SysState :=
  match dbGet st.db file_id with
  | none => (.httpError ⟨404, "File not found"⟩, st)
  | some file_record =>
    match fsRead st.fs file_record.file_path with
    | none => (.httpError ⟨404, "File not found on disk"⟩, st)
    | some content =>
      let current_checksum := calculate_checksum content
      if current_checksum ≠ file_record.checksum then
        (.httpError ⟨500, "File integrity check failed"⟩, st)
      else
        (.file content file_record.filename "application/octet-stream", st)

/-- `delete_file` (lines 92-104): returns the confirmation message. -/
def delete_file (file_id : Nat) (st : SysState) :
    Except HTTPException String × SysState :=
  match dbGet st.db file_id with
  | none => (.error ⟨404, "File not found"⟩, st)
  | some file_record =>
    let fs1 := if fsExists st.fs file_record.file_path then
        fsUnlink st.fs file_record.file_path
      else st.fs
    let db1 := dbDelete st.db file_id
    (.ok ("File " ++ file_record.filename ++ " deleted successfully"), ⟨db1, fs1⟩)

/-- The body of the 200 response of `POST /files/{id}/verify`. -/
structure VerifyResult where
  file_id : Nat
  filename : String
  is_valid : Bool
  stored_checksum : String
  current_checksum : String
deriving Repr, DecidableEq

/-- `verify_file_integrity` (lines 106-125). -/
def verify_file_integrity (file_id : Nat) (st : SysState) :
    Except HTTPException VerifyResult × SysState :=
  match dbGet st.db file_id with
  | none => (.error ⟨404, "File not found"⟩, st)
  | some file_record =>
    match fsRead st.fs file_record.file_path with
    | none => (.error ⟨404, "File not found on disk"⟩, st)
    | some content =>
      let current_checksum := calculate_checksum content
      let is_valid := current_checksum == file_record.checksum
      (.ok ⟨file_id, file_record.filename, is_valid,
        file_record.checksum, current_checksum⟩, st)

/-! ## Helper lemmas -/

/-- With enough fuel, rejoining the chunks restores the content. -/
theorem flatten_readChunksF (n : Nat) :
    ∀ (fuel : Nat) (l : Bytes), l.length ≤ fuel →
      (readChunksF fuel n l).flatten = l := by
  intro fuel
  induction fuel with
  | zero =>
    intro l hl
    cases l with
    | nil => rfl
    | cons hd tl => simp at hl
  | succ fuel ih =>
    intro l hl
    cases l with
    | nil => rfl
    | cons hd tl =>
      rw [readChunksF, List.flatten_cons, ih]
      · exact List.take_append_drop (n + 1) (hd :: tl)
      · simp only [List.length_drop, List.length_cons] at *
        omega

/-- Rejoining the chunks of a read loop restores the content. -/
theorem flatten_readChunks (n : Nat) (l : Bytes) : (readChunks n l).flatten = l :=
  flatten_readChunksF n l.length l le_rfl

/-- Folding `update` over a chunk list feeds the concatenated chunks. -/
theorem foldl_update_fed (cs : List Bytes) (c : Sha256Ctx) :
    (cs.foldl Sha256Ctx.update c).fed = c.fed ++ cs.flatten := by
  induction cs generalizing c with
  | nil => simp
  | cons hd tl ih => simp [Sha256Ctx.update, ih, List.append_assoc]

/-- The chunked file digest is SHA-256 of the whole content. -/
theorem calculate_checksum_eq (B : Bytes) : calculate_checksum B = sha256Hex B := by
  simp [calculate_checksum, Sha256Ctx.hexdigest, foldl_update_fed, Sha256Ctx.new,
    flatten_readChunks]

/-- Reading back the path just written yields the bytes written. -/
theorem fsRead_fsWrite_self (fs : FileSystem) (p : String) (c : Bytes) :
    fsRead (fsWrite fs p c) p = some c := by
  simp [fsRead, fsWrite, List.find?]

/-- After unlinking `p` no file is at `p`. -/
theorem fsRead_fsUnlink_self (fs : FileSystem) (p : String) :
    fsRead (fsUnlink fs p) p = none := by
  simp only [fsRead, fsUnlink]
  have h : (fs.filter (fun e => !(e.1 == p))).find? (fun e => e.1 == p) = none := by
    rw [List.find?_eq_none]
    intro x hx
    have := (List.mem_filter.mp hx).2
    simpa using this
  rw [h]

/-- After deleting id `i` from the store, lookup of `i` fails. -/
theorem dbGet_dbDelete_self (d : Db) (i : Nat) : dbGet (dbDelete d i) i = none := by
  simp only [dbGet, dbDelete]
  rw [List.find?_eq_none]
  intro r hr
  have := (List.mem_filter.mp hr).2
  simpa using this

/-- A fixed instant used to evaluate the operations on concrete inputs. -/
def t0 : DateTime := ⟨2026, 1, 2, 3, 4, 5, 6⟩

/-- The empty starting state: no rows, id sequence at 1, empty upload root. -/
def st0 : SysState := ⟨⟨[], 1⟩, []⟩

/-- The ten bytes of `"0123456789"`, the spec's concrete upload scenario. -/
def demoBytes : Bytes := [48, 49, 50, 51, 52, 53, 54, 55, 56, 57]

/-! ## Claims -/

/-- C5: the checksum function is deterministic and chunk-invariant —
feeding the 4096-byte read blocks of `B` into the SHA-256 accumulator
(`calculate_checksum`) equals hashing `B` in one piece, any other
chunking of `B` gives the same digest, and identical content gives
identical output. -/
theorem checksum_deterministic_chunk_invariant (B B' : Bytes) (cs : List Bytes) :
    calculate_checksum B = sha256Hex B ∧
    (cs.flatten = B →
      (cs.foldl Sha256Ctx.update Sha256Ctx.new).hexdigest = sha256Hex B) ∧
    (B = B' → calculate_checksum B = calculate_checksum B') := by
  refine ⟨calculate_checksum_eq B, ?_, ?_⟩
  · intro hcs
    simp [Sha256Ctx.hexdigest, foldl_update_fed, Sha256Ctx.new, hcs]
  · intro hB
    rw [hB]

/-- Witness for C5 at `B = [48, 49, 50]` chunked as `[[48, 49], [50]]`. -/
theorem checksum_deterministic_chunk_invariant_witness :
    calculate_checksum [48, 49, 50] = sha256Hex [48, 49, 50] ∧
    (([[48, 49], [50]] : List Bytes).foldl Sha256Ctx.update Sha256Ctx.new).hexdigest =
      sha256Hex [48, 49, 50] ∧
    calculate_checksum [48, 49, 50] = calculate_checksum [48, 49, 50] := by
  obtain ⟨h1, h2, h3⟩ :=
    checksum_deterministic_chunk_invariant [48, 49, 50] [48, 49, 50] [[48, 49], [50]]
  exact ⟨h1, h2 (by decide), h3 rfl⟩

/-- C1: a successful upload writes exactly `B` at the record's path and
persists and returns a record whose checksum is the SHA-256 hex digest of
those bytes, whose size is `B`'s length, and whose status is
`"completed"`. -/
theorem upload_success_integrity (B : Bytes) (F : String) (t : DateTime)
    (st : SysState) (h : B.length ≤ MAX_FILE_SIZE) :
    ∃ rec st', upload_file B F t none st = (.created rec, st') ∧
      fsRead st'.fs rec.file_path = some B ∧
      rec.checksum = sha256Hex B ∧
      rec.file_size = B.length ∧
      rec.status = "completed" ∧
      rec ∈ st'.db.rows := by
  have hn : ¬ B.length > MAX_FILE_SIZE := by omega
  simp only [upload_file, if_neg hn, dbInsert]
  refine ⟨_, _, rfl, ?_, ?_, rfl, rfl, ?_⟩
  · exact fsRead_fsWrite_self _ _ _
  · exact calculate_checksum_eq B
  · simp

/-- Witness for C1: uploading the ten bytes `"0123456789"` into the empty
state. -/
theorem upload_success_integrity_witness :
    demoBytes.length ≤ MAX_FILE_SIZE ∧
    ∃ rec st', upload_file demoBytes "data.txt" t0 none st0 = (.created rec, st') ∧
      fsRead st'.fs rec.file_path = some demoBytes ∧
      rec.checksum = sha256Hex demoBytes ∧
      rec.file_size = demoBytes.length ∧
      rec.status = "completed" ∧
      rec ∈ st'.db.rows :=
  ⟨by decide, upload_success_integrity demoBytes "data.txt" t0 st0 (by decide)⟩

/-- C2 (behaviour at the oversize boundary): a body one byte over the
100 MiB ceiling makes the handler raise `HTTPException(413)` inside its
own `try`; the blanket `except Exception` catches it and dereferences the
still-unassigned local `file_path`, so an `UnboundLocalError` escapes the
handler (the framework answers a generic 500, not 413) — though no file
is written: the state is unchanged. -/
theorem upload_oversize_unhandled (B : Bytes) (F : String) (t : DateTime)
    (failAt : Option UploadFailure) (st : SysState)
    (h : B.length = MAX_FILE_SIZE + 1) :
    upload_file B F t failAt st = (.unhandledError "UnboundLocalError", st) := by
  have hn : B.length > MAX_FILE_SIZE := by omega
  simp only [upload_file, if_pos hn]

/-- Witness for C2's theorem: a body of 104857601 bytes. -/
theorem upload_oversize_unhandled_witness :
    (List.replicate (MAX_FILE_SIZE + 1) 0).length = MAX_FILE_SIZE + 1 ∧
    upload_file (List.replicate (MAX_FILE_SIZE + 1) 0) "data.bin" t0 none st0 =
      (.unhandledError "UnboundLocalError", st0) :=
  ⟨by simp, upload_oversize_unhandled (List.replicate (MAX_FILE_SIZE + 1) 0)
    "data.bin" t0 none st0 (by simp)⟩

/-- C3: an upload failing at any step after the file write (the checksum
pass or the record insert) surfaces a 500 error with the file at the
upload path deleted and the record store untouched — no orphan file, no
orphan record. -/
theorem upload_failure_rollback (B : Bytes) (F : String) (t : DateTime)
    (st : SysState) (f : UploadFailure) (h : B.length ≤ MAX_FILE_SIZE) :
    ∃ e st', upload_file B F t (some f) st = (.httpError e, st') ∧
      e.status_code = 500 ∧
      fsRead st'.fs (uploadPath t F) = none ∧
      st'.db = st.db := by
  have hn : ¬ B.length > MAX_FILE_SIZE := by omega
  simp only [upload_file, if_neg hn]
  exact ⟨_, _, rfl, rfl, fsRead_fsUnlink_self _ _, rfl⟩

/-- Witness for C3: a failing checksum pass after writing ten bytes. -/
theorem upload_failure_rollback_witness :
    demoBytes.length ≤ MAX_FILE_SIZE ∧
    ∃ e st', upload_file demoBytes "data.txt" t0
        (some (.checksumStep "disk error")) st0 = (.httpError e, st') ∧
      e.status_code = 500 ∧
      fsRead st'.fs (uploadPath t0 "data.txt") = none ∧
      st'.db = st0.db :=
  ⟨by decide, upload_failure_rollback demoBytes "data.txt" t0 st0
    (.checksumStep "disk error") (by decide)⟩

/-- Metadata lookup returns the state it was given. -/
theorem get_file_metadata_snd (i : Nat) (st : SysState) :
    (get_file_metadata i st).2 = st := by
  rcases hg : dbGet st.db i with _ | r <;> simp [get_file_metadata, hg]

/-- Download returns the state it was given. -/
theorem download_file_snd (i : Nat) (st : SysState) :
    (download_file i st).2 = st := by
  rcases hg : dbGet st.db i with _ | r
  · simp [download_file, hg]
  · rcases hf : fsRead st.fs r.file_path with _ | content
    · simp [download_file, hg, hf]
    · by_cases h : calculate_checksum content = r.checksum <;>
        simp [download_file, hg, hf, h]

/-- Verify returns the state it was given. -/
theorem verify_file_integrity_snd (i : Nat) (st : SysState) :
    (verify_file_integrity i st).2 = st := by
  rcases hg : dbGet st.db i with _ | r
  · simp [verify_file_integrity, hg]
  · rcases hf : fsRead st.fs r.file_path with _ | content <;>
      simp [verify_file_integrity, hg, hf]

/-- A record whose stored checksum matches the bytes on disk. -/
def recA : FileTransfer :=
  ⟨1, "a.txt", "20260102_030405_a.txt", "uploads/a", 3, sha256Hex [1, 2, 3], t0,
    "completed"⟩

/-- A record whose stored checksum does not match the bytes on disk. -/
def recB : FileTransfer :=
  ⟨2, "b.txt", "20260102_030405_b.txt", "uploads/b", 2, "bad", t0, "completed"⟩

/-- A record whose file is missing from the upload root. -/
def recC : FileTransfer :=
  ⟨3, "c.txt", "20260102_030405_c.txt", "uploads/c", 1, "x", t0, "completed"⟩

/-- A state holding the three records above; only `recA` and `recB` have
files on disk. -/
def stW : SysState :=
  ⟨⟨[recA, recB, recC], 4⟩, [("uploads/a", [1, 2, 3]), ("uploads/b", [4, 5])]⟩

/-- C4: download answers record-not-found 404 when the id is absent, a
distinct 404 when the record exists but its file is gone, a 500 integrity
failure serving no bytes when the recomputed SHA-256 digest differs from
the stored checksum, and otherwise serves the file's bytes under the
record's original filename with content type
`application/octet-stream`. -/
theorem download_behavior (i : Nat) (st : SysState) :
    (dbGet st.db i = none →
      download_file i st = (.httpError ⟨404, "File not found"⟩, st)) ∧
    (∀ r, dbGet st.db i = some r → fsRead st.fs r.file_path = none →
      download_file i st = (.httpError ⟨404, "File not found on disk"⟩, st)) ∧
    (∀ r content, dbGet st.db i = some r →
      fsRead st.fs r.file_path = some content →
      sha256Hex content ≠ r.checksum →
      download_file i st = (.httpError ⟨500, "File integrity check failed"⟩, st)) ∧
    (∀ r content, dbGet st.db i = some r →
      fsRead st.fs r.file_path = some content →
      sha256Hex content = r.checksum →
      download_file i st =
        (.file content r.filename "application/octet-stream", st)) := by
  refine ⟨?_, ?_, ?_, ?_⟩
  · intro hg
    simp [download_file, hg]
  · intro r hg hf
    simp [download_file, hg, hf]
  · intro r content hg hf hne
    simp [download_file, hg, hf, calculate_checksum_eq, hne]
  · intro r content hg hf heq
    simp [download_file, hg, hf, calculate_checksum_eq, heq]

/-- Witness for C4: all four download branches exercised on `stW`. -/
theorem download_behavior_witness :
    (dbGet stW.db 99 = none ∧
      download_file 99 stW = (.httpError ⟨404, "File not found"⟩, stW)) ∧
    (dbGet stW.db 3 = some recC ∧ fsRead stW.fs recC.file_path = none ∧
      download_file 3 stW = (.httpError ⟨404, "File not found on disk"⟩, stW)) ∧
    (dbGet stW.db 2 = some recB ∧ fsRead stW.fs recB.file_path = some [4, 5] ∧
      sha256Hex [4, 5] ≠ recB.checksum ∧
      download_file 2 stW = (.httpError ⟨500, "File integrity check failed"⟩, stW)) ∧
    (dbGet stW.db 1 = some recA ∧ fsRead stW.fs recA.file_path = some [1, 2, 3] ∧
      sha256Hex [1, 2, 3] = recA.checksum ∧
      download_file 1 stW = (.file [1, 2, 3] recA.filename
        "application/octet-stream", stW)) :=
  ⟨⟨by decide, (download_behavior 99 stW).1 (by decide)⟩,
   ⟨by decide, by decide,
     (download_behavior 3 stW).2.1 recC (by decide) (by decide)⟩,
   ⟨by decide, by decide, by decide,
     (download_behavior 2 stW).2.2.1 recB [4, 5] (by decide) (by decide)
       (by decide)⟩,
   ⟨by decide, by decide, rfl,
     (download_behavior 1 stW).2.2.2 recA [1, 2, 3] (by decide) (by decide)
       rfl⟩⟩

/-- C6: when the record and its file exist, verify never errors — it
returns the id, original filename, stored and recomputed checksums, and
`is_valid` true exactly when they are equal; it answers 404 when the
record or the file is absent; and repeated calls on an unchanged state
return the same result. -/
theorem verify_behavior (i : Nat) (st : SysState) :
    (∀ r content, dbGet st.db i = some r →
      fsRead st.fs r.file_path = some content →
      verify_file_integrity i st =
        (.ok ⟨i, r.filename, sha256Hex content == r.checksum, r.checksum,
          sha256Hex content⟩, st) ∧
      ((sha256Hex content == r.checksum) = true ↔
        sha256Hex content = r.checksum)) ∧
    (dbGet st.db i = none →
      verify_file_integrity i st = (.error ⟨404, "File not found"⟩, st)) ∧
    (∀ r, dbGet st.db i = some r → fsRead st.fs r.file_path = none →
      verify_file_integrity i st = (.error ⟨404, "File not found on disk"⟩, st)) ∧
    (verify_file_integrity i (verify_file_integrity i st).2).1 =
      (verify_file_integrity i st).1 := by
  refine ⟨?_, ?_, ?_, ?_⟩
  · intro r content hg hf
    refine ⟨?_, beq_iff_eq⟩
    simp [verify_file_integrity, hg, hf, calculate_checksum_eq]
  · intro hg
    simp [verify_file_integrity, hg]
  · intro r hg hf
    simp [verify_file_integrity, hg, hf]
  · rw [verify_file_integrity_snd]

/-- Witness for C6: the matching, mismatching, record-absent and
file-absent cases on `stW`, plus repetition. -/
theorem verify_behavior_witness :
    (dbGet stW.db 1 = some recA ∧ fsRead stW.fs recA.file_path = some [1, 2, 3] ∧
      verify_file_integrity 1 stW =
        (.ok ⟨1, recA.filename, sha256Hex [1, 2, 3] == recA.checksum,
          recA.checksum, sha256Hex [1, 2, 3]⟩, stW)) ∧
    (dbGet stW.db 2 = some recB ∧ fsRead stW.fs recB.file_path = some [4, 5] ∧
      verify_file_integrity 2 stW =
        (.ok ⟨2, recB.filename, sha256Hex [4, 5] == recB.checksum,
          recB.checksum, sha256Hex [4, 5]⟩, stW)) ∧
    (dbGet stW.db 99 = none ∧
      verify_file_integrity 99 stW = (.error ⟨404, "File not found"⟩, stW)) ∧
    (dbGet stW.db 3 = some recC ∧ fsRead stW.fs recC.file_path = none ∧
      verify_file_integrity 3 stW = (.error ⟨404, "File not found on disk"⟩, stW)) ∧
    (verify_file_integrity 1 (verify_file_integrity 1 stW).2).1 =
      (verify_file_integrity 1 stW).1 :=
  ⟨⟨by decide, by decide,
     ((verify_behavior 1 stW).1 recA [1, 2, 3] (by decide) (by decide)).1⟩,
   ⟨by decide, by decide,
     ((verify_behavior 2 stW).1 recB [4, 5] (by decide) (by decide)).1⟩,
   ⟨by decide, (verify_behavior 99 stW).2.1 (by decide)⟩,
   ⟨by decide, by decide,
     (verify_behavior 3 stW).2.2.1 recC (by decide) (by decide)⟩,
   (verify_behavior 1 stW).2.2.2⟩

/-- C7: deleting an absent id answers 404 with the state unchanged;
deleting a present id removes the file at the record's path if any,
removes the record, returns a confirmation naming the original filename,
and a second delete of the same id answers 404. -/
theorem delete_behavior (i : Nat) (st : SysState) :
    (dbGet st.db i = none →
      delete_file i st = (.error ⟨404, "File not found"⟩, st)) ∧
    (∀ r, dbGet st.db i = some r →
      ∃ st', delete_file i st =
          (.ok ("File " ++ r.filename ++ " deleted successfully"), st') ∧
        fsRead st'.fs r.file_path = none ∧
        dbGet st'.db i = none ∧
        delete_file i st' = (.error ⟨404, "File not found"⟩, st')) := by
  constructor
  · intro hg
    simp [delete_file, hg]
  · intro r hg
    refine ⟨⟨dbDelete st.db i,
      if fsExists st.fs r.file_path then fsUnlink st.fs r.file_path else st.fs⟩,
      by simp [delete_file, hg], ?_, ?_, ?_⟩
    · by_cases h : fsExists st.fs r.file_path
      · simp only [h, if_true]
        exact fsRead_fsUnlink_self _ _
      · simp only [h, if_false]
        simpa [fsExists, Option.isSome_iff_ne_none] using h
    · exact dbGet_dbDelete_self st.db i
    · simp [delete_file, dbGet_dbDelete_self]

/-- Witness for C7: the 404 case at id 99 and the successful delete of
id 1 on `stW`. -/
theorem delete_behavior_witness :
    (dbGet stW.db 99 = none ∧
      delete_file 99 stW = (.error ⟨404, "File not found"⟩, stW)) ∧
    (dbGet stW.db 1 = some recA ∧
      ∃ st', delete_file 1 stW =
          (.ok ("File " ++ recA.filename ++ " deleted successfully"), st') ∧
        fsRead st'.fs recA.file_path = none ∧
        dbGet st'.db 1 = none ∧
        delete_file 1 st' = (.error ⟨404, "File not found"⟩, st')) :=
  ⟨⟨by decide, (delete_behavior 99 stW).1 (by decide)⟩,
   ⟨by decide, (delete_behavior 1 stW).2 recA (by decide)⟩⟩

/-- Inserting with the next sequence id keeps the store well-formed. -/
theorem dbInsert_wf (d : Db) (r : FileTransfer) (h : DbWf d) :
    DbWf (dbInsert d r).2 := by
  obtain ⟨hp, hb⟩ := h
  constructor
  · apply List.pairwise_append.mpr
    refine ⟨hp, List.pairwise_singleton _ _, ?_⟩
    intro a ha b hb'
    simp only [dbInsert, List.mem_singleton] at hb'
    subst hb'
    exact hb a ha
  · intro x hx
    simp only [dbInsert] at hx
    rcases List.mem_append.mp hx with hx | hx
    · exact Nat.lt_succ_of_lt (hb x hx)
    · simp only [List.mem_singleton] at hx
      subst hx
      simp [dbInsert]

/-- Deleting a row keeps the store well-formed. -/
theorem dbDelete_wf (d : Db) (i : Nat) (h : DbWf d) : DbWf (dbDelete d i) := by
  obtain ⟨hp, hb⟩ := h
  exact ⟨hp.sublist (List.filter_sublist _),
    fun r hr => hb r (List.mem_of_mem_filter hr)⟩

/-- C8: listing returns the rows truncated by `skip` and `limit` without
reordering — on a well-formed store the result is a subsequence of the
rows, still strictly ascending by id — and the endpoint defaults are
`skip = 0`, `limit = 100`. -/
theorem list_stable_order (st : SysState) (skip limit : Nat) (h : DbWf st.db) :
    (list_files skip limit st).1 = (st.db.rows.drop skip).take limit ∧
    List.Sublist (list_files skip limit st).1 st.db.rows ∧
    (list_files skip limit st).1.Pairwise (fun a b => a.id < b.id) ∧
    list_files_default st = list_files LIST_SKIP_DEFAULT LIST_LIMIT_DEFAULT st ∧
    LIST_SKIP_DEFAULT = 0 ∧ LIST_LIMIT_DEFAULT = 100 := by
  have hsub : List.Sublist (list_files skip limit st).1 st.db.rows := by
    simpa [list_files, dbList] using
      (List.take_sublist limit (st.db.rows.drop skip)).trans
        (List.drop_sublist skip st.db.rows)
  exact ⟨rfl, hsub, h.1.sublist hsub, rfl, rfl, rfl⟩

/-- Witness for C8: the window `skip = 1`, `limit = 1` on `stW`. -/
theorem list_stable_order_witness :
    DbWf stW.db ∧
    (list_files 1 1 stW).1 = (stW.db.rows.drop 1).take 1 ∧
    List.Sublist (list_files 1 1 stW).1 stW.db.rows ∧
    (list_files 1 1 stW).1.Pairwise (fun a b => a.id < b.id) ∧
    list_files_default stW = list_files LIST_SKIP_DEFAULT LIST_LIMIT_DEFAULT stW ∧
    LIST_SKIP_DEFAULT = 0 ∧ LIST_LIMIT_DEFAULT = 100 :=
  ⟨⟨by decide, by decide⟩, list_stable_order stW 1 1 ⟨by decide, by decide⟩⟩

/-- C9: a successful upload's stored name is the upload instant rendered
at second granularity (`YYYYMMDD_HHMMSS`), an underscore, then the
original filename verbatim; its path is the upload root joined with that
name; and any two instants agreeing on the six second-granularity fields
(whatever their microseconds) derive the same stored name. -/
theorem stored_name_timestamped (B : Bytes) (F : String) (t : DateTime)
    (st : SysState) (h : B.length ≤ MAX_FILE_SIZE) :
    ∃ rec st', upload_file B F t none st = (.created rec, st') ∧
      rec.stored_filename = strftimeCompact t ++ "_" ++ F ∧
      rec.file_path = "uploads/" ++ rec.stored_filename ∧
      ∀ t' : DateTime, t'.year = t.year → t'.month = t.month →
        t'.day = t.day → t'.hour = t.hour → t'.minute = t.minute →
        t'.second = t.second → safeFilename t' F = safeFilename t F := by
  have hn : ¬ B.length > MAX_FILE_SIZE := by omega
  simp only [upload_file, if_neg hn, dbInsert]
  refine ⟨_, _, rfl, rfl, rfl, ?_⟩
  intro t' h1 h2 h3 h4 h5 h6
  simp [safeFilename, strftimeCompact, h1, h2, h3, h4, h5, h6]

/-- Witness for C9: `t0` and an instant differing only in microseconds. -/
theorem stored_name_timestamped_witness :
    demoBytes.length ≤ MAX_FILE_SIZE ∧
    (∃ rec st', upload_file demoBytes "data.txt" t0 none st0 = (.created rec, st') ∧
      rec.stored_filename = strftimeCompact t0 ++ "_" ++ "data.txt" ∧
      rec.file_path = "uploads/" ++ rec.stored_filename ∧
      ∀ t' : DateTime, t'.year = t0.year → t'.month = t0.month →
        t'.day = t0.day → t'.hour = t0.hour → t'.minute = t0.minute →
        t'.second = t0.second → safeFilename t' "data.txt" = safeFilename t0 "data.txt") :=
  ⟨by decide, stored_name_timestamped demoBytes "data.txt" t0 st0 (by decide)⟩

/-- C10: metadata lookup, download, and verify are read-only — whatever
their outcome, the resulting state (all records and all stored files'
bytes) is the state they were given. -/
theorem read_ops_pure (i : Nat) (st : SysState) :
    (get_file_metadata i st).2 = st ∧
    (download_file i st).2 = st ∧
    (verify_file_integrity i st).2 = st :=
  ⟨get_file_metadata_snd i st, download_file_snd i st,
    verify_file_integrity_snd i st⟩

end TaskManager
